import Mathlib

/-!
Shallow embedding of the matchmaking / chat-session code of the repository
(`src/controllers/chatController.js`, `src/server.js`, `src/utils/chatQueue.js`,
`src/models/chatModel.js` and the unnamed source parts), together with proofs
about the embedded operations.

JavaScript `Map`s are modelled as association lists (`List (Nat × α)`) with
JS `Map` iteration order (insertion order); Mongo collections as lists of
records; user ids, chat ids and socket ids as `Nat`; Mongo documents carry the
schema defaults and schema validation of `chatModel.js` / `messageSchema`.
All handlers are embedded with sequential (single-thread) semantics.
-/

namespace CircleBack

/-- JS `Map.get`: first binding of the key in insertion order. -/
def lookupKey {α : Type} (k : Nat) : List (Nat × α) → Option α
  | [] => none
  | (k', v) :: rest => if k' = k then some v else lookupKey k rest

/-- JS `Map.set`: replace the existing binding, else append. -/
def setKey {α : Type} (k : Nat) (v : α) : List (Nat × α) → List (Nat × α)
  | [] => [(k, v)]
  | (k', v') :: rest => if k' = k then (k, v) :: rest else (k', v') :: setKey k v rest

/-- JS `Map.delete`. -/
def removeKey {α : Type} (k : Nat) : List (Nat × α) → List (Nat × α)
  | [] => []
  | (k', v) :: rest => if k' = k then removeKey k rest else (k', v) :: removeKey k rest

/-- A pending-match ballot, as stored in the `pendingMatches` map of
`src/controllers/chatController.js` (users, chatId, acceptances, rejections,
expiresAt). -/
structure PendingMatch where
  users : List Nat
  chatId : Nat
  acceptances : List Nat
  rejections : List Nat
  expiresAt : Nat
  deriving Repr, DecidableEq

/-- A `Chat` document of `src/models/chatModel.js`: participants, chatType,
isActive, lastMessage, plus the `unreadCount` field incremented by
`handleMessage`. -/
structure Chat where
  id : Nat
  participants : List Nat
  chatType : String
  isActive : Bool
  lastMessage : Option Nat
  unreadCount : Nat
  deriving Repr, DecidableEq

/-- The `enum` of `chatSchema.chatType` in `src/models/chatModel.js`. -/
def chatTypeEnum : List String := ["Friendship", "Dating"]

/-- Mongoose `Chat.create`: succeeds iff `chatType` passes the schema enum
validation; `isActive` is set by the callers embedded here. -/
def chatCreate (nextId : Nat) (participants : List Nat) (chatType : String) :
    Option Chat :=
  if chatType ∈ chatTypeEnum then
    some { id := nextId, participants := participants, chatType := chatType,
           isActive := true, lastMessage := none, unreadCount := 0 }
  else none

/-- Mongo `User.updateMany({_id: {$in: users}}, {chatStatus: s})` over the
user collection, modelled as an association list user-id ↦ chatStatus. -/
def setStatusMany (users : List Nat) (s : String) (db : List (Nat × String)) :
    List (Nat × String) :=
  db.map (fun p => if p.1 ∈ users then (p.1, s) else p)

/-- Result value of the match handlers of `chatController.js`: pending
success, success carrying the created chat, rejected, or an error message. -/
inductive MatchResult where
  | pending
  | accepted (chat : Chat)
  | rejected
  | err (msg : String)
  deriving Repr, DecidableEq

namespace ChatController

/-- The in-memory state touched by the matchmaking handlers of
`src/controllers/chatController.js`: the module-level `pendingMatches` map,
the Mongo `Chat` collection, the `chatStatus` column of the Mongo `User`
collection, and a fresh-id counter for created chats. -/
structure CtrlState where
  pendingMatches : List (Nat × PendingMatch)
  chats : List Chat
  userStatus : List (Nat × String)
  nextChatDbId : Nat
  deriving Repr, DecidableEq

/-- Embeds `createChatSession(user1Id, user2Id, chatType)` of `chatController.js`
(lines 329–358): if some pending match already contains both users, return its
chatId; otherwise insert a fresh ballot with empty acceptances/rejections and
`expiresAt = now + 120000`.  (`chatType` is accepted and dropped by that
variant: the ballot record it stores has no chatType field.) -/
def createChatSession (st : CtrlState) (user1Id user2Id : Nat)
    (freshId now : Nat) : CtrlState × Nat :=
  match st.pendingMatches.find?
      (fun p => p.2.users.contains user1Id && p.2.users.contains user2Id) with
  | some p => (st, p.2.chatId)
  | none =>
      let m : PendingMatch :=
        { users := [user1Id, user2Id], chatId := freshId,
          acceptances := [], rejections := [], expiresAt := now + 120000 }
      ({ st with pendingMatches := setKey freshId m st.pendingMatches }, freshId)

/-- The `setTimeout` callback installed by `createChatSession` (fires 120 s
after ballot creation): `if (pendingMatches.has(chatId)) pendingMatches.delete(chatId)`.
It touches nothing but the `pendingMatches` map. -/
def expireTimer (st : CtrlState) (chatId : Nat) : CtrlState :=
  { st with pendingMatches := removeKey chatId st.pendingMatches }

/-- Embeds `handleMatchAcceptance(chatId, userId)` of `chatController.js`
(lines 361–415), sequential semantics (the awaited 100 ms re-read observes the
state this call produced).  Records the acceptance unless the user already
responded, sets both users' chatStatus to `pending`, and decides only when two
responses are present: two acceptances attempt `Chat.create` with
`chatType: random` (subject to schema validation), otherwise the ballot is
cancelled and both users are set back to `online`. -/
def handleMatchAcceptance (st : CtrlState) (chatId userId : Nat) :
    CtrlState × MatchResult :=
  match lookupKey chatId st.pendingMatches with
  | none => (st, .err "Match expired")
  | some m0 =>
      let responded : Bool := m0.acceptances.contains userId || m0.rejections.contains userId
      let m := if responded then m0
               else { m0 with acceptances := m0.acceptances ++ [userId] }
      let pm1 := if responded then st.pendingMatches
                 else setKey chatId m st.pendingMatches
      let db1 := setStatusMany m.users "pending" st.userStatus
      let st1 : CtrlState := { st with pendingMatches := pm1, userStatus := db1 }
      let total := m.acceptances.length + m.rejections.length
      if total < 2 ∧ m.acceptances.length < 2 then
        (st1, .pending)
      else if m.acceptances.length = 2 then
        match chatCreate st.nextChatDbId m.users "random" with
        | some chat =>
            ({ st1 with
                chats := st1.chats ++ [chat],
                userStatus := setStatusMany m.users "in_chat" db1,
                pendingMatches := removeKey chatId pm1,
                nextChatDbId := st.nextChatDbId + 1 },
             .accepted chat)
        | none => (st1, .err "Chat validation failed")
      else
        ({ st1 with
            userStatus := setStatusMany m.users "online" db1,
            pendingMatches := removeKey chatId pm1 },
         .rejected)

/-- Embeds `handleMatchRejection(chatId, userId)` of `chatController.js`
(lines 419–452): idempotent early return if the user already responded;
otherwise record the rejection, set both users to `pending`, and only when
both users have responded cancel the ballot (statuses back to `online`,
result `rejected`); a first rejection returns `status: pending` with the
ballot kept. -/
def handleMatchRejection (st : CtrlState) (chatId userId : Nat) :
    CtrlState × MatchResult :=
  match lookupKey chatId st.pendingMatches with
  | none => (st, .err "Match expired")
  | some m0 =>
      if m0.rejections.contains userId || m0.acceptances.contains userId then
        (st, .pending)
      else
        let m := { m0 with rejections := m0.rejections ++ [userId] }
        let pm1 := setKey chatId m st.pendingMatches
        let db1 := setStatusMany m.users "pending" st.userStatus
        if m.acceptances.length + m.rejections.length < 2 then
          ({ st with pendingMatches := pm1, userStatus := db1 }, .pending)
        else
          ({ st with
              pendingMatches := removeKey chatId pm1,
              userStatus := setStatusMany m.users "online" db1 },
           .rejected)

end ChatController

/-- Model of the JS `String.prototype.trim` applied by the mongoose
`trim: true` option of the message schema: strip leading and trailing
whitespace. -/
def strTrim (s : String) : String :=
  ⟨((s.data.dropWhile Char.isWhitespace).reverse.dropWhile Char.isWhitespace).reverse⟩

/-- A `Message` document of the message schema bundled with
`src/models/chatModel.js`: chat, sender, content (trimmed, required),
readBy (schema default empty), edited flag. -/
structure Message where
  id : Nat
  chat : Nat
  sender : Nat
  content : String
  readBy : List Nat
  edited : Bool
  deriving Repr, DecidableEq

/-- Mongoose `Message.create`: the schema declares `content` with
`required: true` and `trim: true`, so creation succeeds iff the content is
non-empty after trimming, and stores the trimmed content; no length bound is
declared anywhere in the schema.  `readBy` is whatever the caller passes
(schema default: the empty list). -/
def messageCreate (nextId chatId senderId : Nat) (content : String)
    (readBy : List Nat) : Option Message :=
  if strTrim content = "" then none
  else some { id := nextId, chat := chatId, sender := senderId,
              content := strTrim content, readBy := readBy, edited := false }

/-- State for the message operations: the Mongo chat and message collections
plus a fresh-id counter for created messages. -/
structure MsgState where
  chats : List Chat
  messages : List Message
  nextMsgId : Nat
  deriving Repr, DecidableEq

/-- Mongo `Chat.findById`. -/
def findChat (chats : List Chat) (chatId : Nat) : Option Chat :=
  chats.find? (fun c => c.id == chatId)

/-- Result value of the message handlers: success carrying the persisted
message and the computed receiver, or an error message. -/
inductive MsgResult where
  | ok (message : Message) (receiverId : Option Nat)
  | err (msg : String)
  deriving Repr, DecidableEq

/-- Mongo `findOneAndUpdate` on the message collection: update the first
document matching the filter, `none` when no document matches. -/
def updateFirstMessage (p : Message → Bool) (f : Message → Message) :
    List Message → Option (List Message)
  | [] => none
  | m :: rest =>
      if p m then some (f m :: rest)
      else (updateFirstMessage p f rest).map (m :: ·)

/-- Mongo `findOneAndDelete` on the message collection: delete the first
document matching the filter, `none` when no document matches. -/
def deleteFirstMessage (p : Message → Bool) :
    List Message → Option (List Message)
  | [] => none
  | m :: rest =>
      if p m then some rest
      else (deleteFirstMessage p rest).map (m :: ·)

namespace ChatController

/-- Embeds `editMessage` of `chatController.js` (lines 618–633):
`findOneAndUpdate` filtered on the message id and on the requester being the
sender, setting the new content and the edited flag; a 404 `Message not found`
when no document matches.  `true` stands for the HTTP 200 response. -/
def editMessage (st : MsgState) (messageId requesterId : Nat)
    (newContent : String) : MsgState × Bool :=
  match updateFirstMessage
      (fun m => m.id == messageId && m.sender == requesterId)
      (fun m => { m with content := newContent, edited := true }) st.messages with
  | some ms => ({ st with messages := ms }, true)
  | none => (st, false)

/-- Embeds `deleteMessage` of `chatController.js` (lines 635–649):
`findOneAndDelete` filtered on the message id and on the requester being the
sender; a 404 `Message not found` when no document matches. -/
def deleteMessage (st : MsgState) (messageId requesterId : Nat) :
    MsgState × Bool :=
  match deleteFirstMessage
      (fun m => m.id == messageId && m.sender == requesterId) st.messages with
  | some ms => ({ st with messages := ms }, true)
  | none => (st, false)

end ChatController

namespace Part000

/-- Embeds `handleMessage` of `src/unnamed/part_000` (lines 548–587): fails
when the chat is missing or inactive, otherwise persists a message with
`readBy = [senderId]` (subject to message-schema validation), updates the
chat's lastMessage and unreadCount and returns the other participant as
receiver.  Neither sender participation nor any content-length bound is
checked. -/
def handleMessage (st : MsgState) (chatId senderId : Nat) (content : String) :
    MsgState × MsgResult :=
  match findChat st.chats chatId with
  | none => (st, .err "Chat is not active")
  | some chat =>
      if chat.isActive then
        match messageCreate st.nextMsgId chatId senderId content [senderId] with
        | none => (st, .err "Message validation failed")
        | some msg =>
            ({ chats := st.chats.map (fun c =>
                  if c.id = chatId then
                    { c with lastMessage := some msg.id,
                             unreadCount := c.unreadCount + 1 }
                  else c),
               messages := st.messages ++ [msg],
               nextMsgId := st.nextMsgId + 1 },
             .ok msg (chat.participants.find? (fun i => ! (i == senderId))))
      else (st, .err "Chat is not active")

end Part000

namespace ServerJs

/-- Embeds the `send-message` socket handler of `src/server.js`
(lines 160–196): it rejects falsy parameters, then runs `Message.create`
with content, sender and chat only — no `readBy`, so the schema default
(empty list) applies — and only afterwards checks that the chat exists; the
created message stays persisted either way. -/
def sendMessage (st : MsgState) (chatId senderId : Nat) (content : String) :
    MsgState × MsgResult :=
  if content = "" ∨ chatId = 0 ∨ senderId = 0 then
    (st, .err "Missing message parameters")
  else
    match messageCreate st.nextMsgId chatId senderId content [] with
    | none => (st, .err "Message validation failed")
    | some msg =>
        let st1 : MsgState :=
          { st with messages := st.messages ++ [msg],
                    nextMsgId := st.nextMsgId + 1 }
        match findChat st.chats chatId with
        | none => (st1, .err "Chat not found")
        | some _ => (st1, .ok msg none)

end ServerJs

/-- An entry of the module-level `activeUsers` map (`src/server.js`,
`src/unnamed/part_005`): owning socket, status string, chat preference and
normalized interests. -/
structure ActiveUser where
  socketId : Nat
  status : String
  chatPreference : String
  interests : List String
  deriving Repr, DecidableEq

/-- Presence columns of a user document (`online`, `chatStatus`). -/
structure Presence where
  online : Bool
  chatStatus : String
  deriving Repr, DecidableEq

namespace ServerJs

/-- Server-side state touched by the disconnect path of `src/server.js`:
`activeUsers`, the keys of `matchIntervals`, the `pendingMatches` map and the
presence columns of the user collection. -/
structure ServerState where
  activeUsers : List (Nat × ActiveUser)
  matchIntervals : List Nat
  pendingMatches : List (Nat × PendingMatch)
  userDb : List (Nat × Presence)
  deriving Repr, DecidableEq

/-- Embeds `cleanupUser(userId)` of `src/server.js` (lines 449–460): clears
the user's match interval and removes the user from `activeUsers`;
`pendingMatches` is not touched. -/
def cleanupUser (st : ServerState) (userId : Nat) : ServerState :=
  { st with matchIntervals := st.matchIntervals.erase userId,
            activeUsers := removeKey userId st.activeUsers }

/-- Embeds the `disconnect` socket handler of `src/server.js`
(lines 199–212): find the first active user owning the socket, run
`cleanupUser` and mark that user offline in the database.  No vote is
recorded on any pending ballot and no other user is updated. -/
def disconnectHandler (st : ServerState) (socketId : Nat) : ServerState :=
  match st.activeUsers.find? (fun p => p.2.socketId == socketId) with
  | none => st
  | some p =>
      let st1 := cleanupUser st p.1
      { st1 with userDb := st1.userDb.map (fun q =>
          if q.1 = p.1 then (q.1, ⟨false, "offline"⟩) else q) }

end ServerJs

namespace Part005

/-- A candidate record pushed by `findMatch` of `src/unnamed/part_005`:
the candidate's id, the spread candidate fields and the common-interest
count. -/
structure Candidate where
  id : Nat
  user : ActiveUser
  commonCount : Nat
  deriving Repr, DecidableEq

/-- Common interests of a candidate with the searcher, as computed in
`findMatch`: the candidate's interests filtered by membership in the
searcher's interests. -/
def commonInterests (candidate searcher : ActiveUser) : List String :=
  candidate.interests.filter (fun i => searcher.interests.contains i)

/-- Embeds the `start-search` socket handler of `src/unnamed/part_005`
(lines 91–131) over the same module state as `src/server.js` (both files keep
`activeUsers`, `matchIntervals` and `pendingMatches` as module maps).  After
reloading the user document (whose normalized interests and chat preference
are the `interests`/`chatPreference` arguments here), it forces a fresh
active-user entry with status `searching` — with no check whether the user
already sits in a pending ballot — and (re)arms the per-user matchmaking
interval.  The pending-match table is not touched. -/
def startSearch (st : ServerJs.ServerState) (userId socketId : Nat)
    (interests : List String) (chatPreference : String) :
    ServerJs.ServerState :=
  { st with
      activeUsers := setKey userId
        { socketId := socketId, status := "searching",
          chatPreference := chatPreference, interests := interests }
        st.activeUsers,
      matchIntervals :=
        if userId ∈ st.matchIntervals then st.matchIntervals
        else st.matchIntervals ++ [userId] }

/-- Embeds `findMatch(userId)` of `src/unnamed/part_005` (lines 222–286): the
searcher must be an active user with status `searching`; candidates are the
other active users with status `searching`, the same chat preference and at
least one common interest; when more than one candidate exists they are
sorted by common-interest count descending, and the first is returned. -/
def findMatch (activeUsers : List (Nat × ActiveUser)) (userId : Nat) :
    Option Candidate :=
  match lookupKey userId activeUsers with
  | none => none
  | some searcher =>
      if searcher.status = "searching" then
        let potential := activeUsers.filterMap (fun p =>
          if p.1 ≠ userId ∧ p.2.status = "searching" ∧
              p.2.chatPreference = searcher.chatPreference ∧
              0 < (commonInterests p.2 searcher).length then
            some ⟨p.1, p.2, (commonInterests p.2 searcher).length⟩
          else none)
        let ranked := if 1 < potential.length then
            potential.mergeSort (fun a b => b.commonCount ≤ a.commonCount)
          else potential
        ranked.head?
      else none

end Part005

namespace ChatQueue

/-- A queue entry of `src/utils/chatQueue.js`: the preferences object stored
by `addUser` (interests, chat preference, enqueue timestamp). -/
structure QueueEntry where
  interests : List String
  chatPreference : String
  timestamp : Nat
  deriving Repr, DecidableEq

/-- Embeds `findBestMatch(currentUserId, currentPreferences)` of
`src/utils/chatQueue.js` (lines 18–28): the first queue entry in insertion
order belonging to a different user with the same chat preference and at
least one interest shared with the current preferences. -/
def findBestMatch (queue : List (Nat × QueueEntry)) (currentUserId : Nat)
    (cur : QueueEntry) : Option Nat :=
  (queue.find? (fun p =>
      (! (p.1 == currentUserId)) &&
      p.2.chatPreference == cur.chatPreference &&
      p.2.interests.any (fun i => cur.interests.contains i))).map (·.1)

end ChatQueue

/-- State for the durable `createChatSession` variants: the Mongo chat
collection, the users' chatStatus column and a fresh-id counter. -/
structure SessState where
  chats : List Chat
  userStatus : List (Nat × String)
  nextId : Nat
  deriving Repr, DecidableEq

/-- Result of the durable `createChatSession` variants: the already existing
chat, the newly created chat, or an error. -/
inductive CreateResult where
  | existing (chat : Chat)
  | created (chat : Chat)
  | err (msg : String)
  deriving Repr, DecidableEq

/-- Active chats between two users (the invariant of spec §4.6 counts
these). -/
def activeSessionsBetween (chats : List Chat) (a b : Nat) : List Chat :=
  chats.filter (fun c =>
    c.isActive && c.participants.contains a && c.participants.contains b)

namespace Part000

/-- Embeds `exports.createChatSession(user1Id, user2Id, chatType)` of
`src/unnamed/part_000` (lines 1227–1268): returns the existing active chat
between the two users when there is one (`isNew: false`); otherwise creates
a new active chat (schema validation applies) and sets both users'
chatStatus to `in_chat`. -/
def createChatSession (st : SessState) (user1Id user2Id : Nat)
    (chatType : String) : SessState × CreateResult :=
  match st.chats.find? (fun c =>
      c.participants.contains user1Id && c.participants.contains user2Id &&
      c.isActive) with
  | some c => (st, .existing c)
  | none =>
      match chatCreate st.nextId [user1Id, user2Id] chatType with
      | none => (st, .err "Chat validation failed")
      | some chat =>
          ({ chats := st.chats ++ [chat],
             userStatus := setStatusMany [user1Id, user2Id] "in_chat" st.userStatus,
             nextId := st.nextId + 1 },
           .created chat)

end Part000

namespace Part001

/-- Embeds `createChatSession(io, creatorId, participantId, chatType)` of
`src/unnamed/part_001` (lines 12–76): looks for an existing chat filtered by
the two participants and the chat type — with no `isActive` condition — and
returns it when found; otherwise creates a new active chat (schema
validation applies) and sets both users' chatStatus to `in_chat`. -/
def createChatSession (st : SessState) (creatorId participantId : Nat)
    (chatType : String) : SessState × CreateResult :=
  match st.chats.find? (fun c =>
      c.participants.contains creatorId && c.participants.contains participantId &&
      c.chatType == chatType) with
  | some c => (st, .existing c)
  | none =>
      match chatCreate st.nextId [creatorId, participantId] chatType with
      | none => (st, .err "Chat validation failed")
      | some chat =>
          ({ chats := st.chats ++ [chat],
             userStatus := setStatusMany [creatorId, participantId] "in_chat" st.userStatus,
             nextId := st.nextId + 1 },
           .created chat)

end Part001

/-! Concrete states used by the individual claims. -/

/-- Concrete ballot state for claim C1: one fresh undecided ballot (id 7)
between users 1 and 2, both with chatStatus pending. -/
def stC1 : ChatController.CtrlState :=
  { pendingMatches := [(7, { users := [1, 2], chatId := 7, acceptances := [],
                             rejections := [], expiresAt := 120000 })],
    chats := [],
    userStatus := [(1, "pending"), (2, "pending")],
    nextChatDbId := 0 }

/-- Concrete ballot state for the claim C1 witness, second branch: ballot 7
between users 1 and 2 on which user 2 has already accepted. -/
def stC1b : ChatController.CtrlState :=
  { pendingMatches := [(7, { users := [1, 2], chatId := 7, acceptances := [2],
                             rejections := [], expiresAt := 120000 })],
    chats := [],
    userStatus := [(1, "pending"), (2, "pending")],
    nextChatDbId := 0 }

/-- Concrete ballot state for claim C3: ballot 7 between users 1 and 2 on
which user 1 has already accepted. -/
def stC3 : ChatController.CtrlState :=
  { pendingMatches := [(7, { users := [1, 2], chatId := 7, acceptances := [1],
                             rejections := [], expiresAt := 120000 })],
    chats := [],
    userStatus := [(1, "pending"), (2, "pending")],
    nextChatDbId := 0 }

/-- Concrete ballot state for claim C4: undecided ballot 7 between users 1
and 2, both pending, at its deadline. -/
def stC4 : ChatController.CtrlState :=
  { pendingMatches := [(7, { users := [1, 2], chatId := 7, acceptances := [],
                             rejections := [], expiresAt := 120000 })],
    chats := [],
    userStatus := [(1, "pending"), (2, "pending")],
    nextChatDbId := 0 }

/-- Concrete ballot state for claim C5: ballot 7 between users 1 and 2 on
which user 2 has already accepted, so that user 1's acceptance is the second
one. -/
def stC5 : ChatController.CtrlState :=
  { pendingMatches := [(7, { users := [1, 2], chatId := 7, acceptances := [2],
                             rejections := [], expiresAt := 120000 })],
    chats := [],
    userStatus := [(1, "pending"), (2, "pending")],
    nextChatDbId := 0 }

/-- Concrete message state for claim C6: one active chat (id 10) between
users 1 and 2 and no message yet. -/
def stC6 : MsgState :=
  { chats := [{ id := 10, participants := [1, 2], chatType := "Friendship",
                isActive := true, lastMessage := none, unreadCount := 0 }],
    messages := [],
    nextMsgId := 0 }

/-- Concrete message state for claim C7: one active chat (id 10) between
users 1 and 2 and no message yet. -/
def stC7 : MsgState :=
  { chats := [{ id := 10, participants := [1, 2], chatType := "Friendship",
                isActive := true, lastMessage := none, unreadCount := 0 }],
    messages := [],
    nextMsgId := 0 }

/-- Concrete session state for claim C8: no chat yet, users 1 and 2 online. -/
def stC8 : SessState :=
  { chats := [], userStatus := [(1, "online"), (2, "online")], nextId := 0 }

/-- State after user 1 creates a Friendship chat with user 2 through the
part_001 `createChatSession`. -/
def stC8a : SessState := (Part001.createChatSession stC8 1 2 "Friendship").1

/-- State after user 1 additionally creates a Dating chat with user 2 through
the part_001 `createChatSession`. -/
def stC8b : SessState := (Part001.createChatSession stC8a 1 2 "Dating").1

/-- Concrete session state for the claim C8 witness: one active Friendship
chat (id 0) between users 1 and 2. -/
def stC8w : SessState :=
  { chats := [{ id := 0, participants := [1, 2], chatType := "Friendship",
                isActive := true, lastMessage := none, unreadCount := 0 }],
    userStatus := [(1, "in_chat"), (2, "in_chat")],
    nextId := 1 }

/-- Concrete server state for claim C9: users 1 (socket 100) and 2
(socket 200) both sit in the pending ballot 7 and have pending statuses. -/
def stC9 : ServerJs.ServerState :=
  { activeUsers := [(1, { socketId := 100, status := "pending",
                          chatPreference := "Friendship", interests := ["music"] }),
                    (2, { socketId := 200, status := "pending",
                          chatPreference := "Friendship", interests := ["music"] })],
    matchIntervals := [1, 2],
    pendingMatches := [(7, { users := [1, 2], chatId := 7, acceptances := [],
                             rejections := [], expiresAt := 120000 })],
    userDb := [(1, { online := true, chatStatus := "pending" }),
               (2, { online := true, chatStatus := "pending" })] }

/-- Concrete message state for claim C10: a single message (id 5) sent by
user 1 in chat 10. -/
def stC10 : MsgState :=
  { chats := [],
    messages := [{ id := 5, chat := 10, sender := 1, content := "hi",
                   readBy := [1], edited := false }],
    nextMsgId := 6 }

/-- Concrete active-user map for the claim C2 witness: users 1 and 2, both
searching with the Friendship preference and a shared interest. -/
def auC2 : List (Nat × ActiveUser) :=
  [(1, { socketId := 100, status := "searching",
         chatPreference := "Friendship", interests := ["music", "art"] }),
   (2, { socketId := 200, status := "searching",
         chatPreference := "Friendship", interests := ["art", "sports"] })]

/-- Concrete server state for the claim C2 counterexample: users 2 and 3 sit
in the pending ballot 7 (statuses `pending`), user 1 is searching with the
Friendship preference and the interest `art`, which user 2 shares. -/
def stC2 : ServerJs.ServerState :=
  { activeUsers := [(1, { socketId := 100, status := "searching",
                          chatPreference := "Friendship", interests := ["art"] }),
                    (2, { socketId := 200, status := "pending",
                          chatPreference := "Friendship", interests := ["art"] }),
                    (3, { socketId := 300, status := "pending",
                          chatPreference := "Friendship", interests := ["music"] })],
    matchIntervals := [],
    pendingMatches := [(7, { users := [2, 3], chatId := 7, acceptances := [],
                             rejections := [], expiresAt := 120000 })],
    userDb := [] }

/-- State after user 2 — still a participant of the pending ballot 7 —
issues `start-search` on `stC2`. -/
def stC2b : ServerJs.ServerState :=
  Part005.startSearch stC2 2 200 ["art"] "Friendship"

/-- The candidate that `findMatch` returns for user 1 on `auC2`. -/
def candC2 : Part005.Candidate :=
  { id := 2,
    user := { socketId := 200, status := "searching",
              chatPreference := "Friendship", interests := ["art", "sports"] },
    commonCount := 1 }

/-! Helper lemmas about the map and collection primitives. -/

theorem lookupKey_setKey {α : Type} (k : Nat) (v : α)
    (l : List (Nat × α)) : lookupKey k (setKey k v l) = some v := by
  induction l with
  | nil => simp [setKey, lookupKey]
  | cons p rest ih =>
      obtain ⟨k', v'⟩ := p
      by_cases h : k' = k
      · simp [setKey, lookupKey, h]
      · simp [setKey, lookupKey, h, ih]

theorem lookupKey_removeKey {α : Type} (k : Nat)
    (l : List (Nat × α)) : lookupKey k (removeKey k l) = none := by
  induction l with
  | nil => simp [removeKey, lookupKey]
  | cons p rest ih =>
      obtain ⟨k', v'⟩ := p
      by_cases h : k' = k
      · simp [removeKey, h, ih]
      · simp [removeKey, lookupKey, h, ih]

theorem lookupKey_mem {α : Type} {k : Nat} {v : α} {l : List (Nat × α)}
    (h : lookupKey k l = some v) : (k, v) ∈ l := by
  induction l with
  | nil => simp [lookupKey] at h
  | cons p rest ih =>
      obtain ⟨k', v'⟩ := p
      by_cases hk : k' = k
      · subst hk
        simp only [lookupKey, eq_self_iff_true, if_true, Option.some.injEq] at h
        subst h
        exact List.mem_cons_self _ _
      · simp only [lookupKey, if_neg hk] at h
        exact List.mem_cons_of_mem _ (ih h)

theorem setStatusMany_eq_self (users : List Nat) (s : String) :
    ∀ db : List (Nat × String), (∀ p ∈ db, p.1 ∈ users → p.2 = s) →
      setStatusMany users s db = db
  | [], _ => rfl
  | p :: rest, h => by
      have hrest := setStatusMany_eq_self users s rest
        (fun q hq hm => h q (List.mem_cons_of_mem _ hq) hm)
      have hp : (if p.1 ∈ users then (p.1, s) else p) = p := by
        by_cases hm : p.1 ∈ users
        · obtain ⟨k, v⟩ := p
          have hv := h (k, v) (List.mem_cons_self _ _) hm
          simp only at hv
          simp [if_pos hm, hv]
        · simp [hm]
      calc setStatusMany users s (p :: rest)
          = (if p.1 ∈ users then (p.1, s) else p) :: setStatusMany users s rest := rfl
        _ = p :: rest := by rw [hp, hrest]

theorem updateFirstMessage_isSome (p : Message → Bool) (f : Message → Message) :
    ∀ l : List Message, (updateFirstMessage p f l).isSome = l.any p
  | [] => by simp [updateFirstMessage]
  | m :: rest => by
      by_cases h : p m
      · simp [updateFirstMessage, h]
      · simp [updateFirstMessage, h, updateFirstMessage_isSome p f rest]

theorem deleteFirstMessage_isSome (p : Message → Bool) :
    ∀ l : List Message, (deleteFirstMessage p l).isSome = l.any p
  | [] => by simp [deleteFirstMessage]
  | m :: rest => by
      by_cases h : p m
      · simp [deleteFirstMessage, h]
      · simp [deleteFirstMessage, h, deleteFirstMessage_isSome p rest]

theorem editMessage_snd (st : MsgState) (mid uid : Nat) (c : String) :
    (ChatController.editMessage st mid uid c).2 =
      st.messages.any (fun m => m.id == mid && m.sender == uid) := by
  have hi := updateFirstMessage_isSome (fun m => m.id == mid && m.sender == uid)
    (fun m => { m with content := c, edited := true }) st.messages
  unfold ChatController.editMessage
  cases h : updateFirstMessage (fun m => m.id == mid && m.sender == uid)
      (fun m => { m with content := c, edited := true }) st.messages with
  | none => rw [h] at hi; simpa using hi
  | some ms => rw [h] at hi; simpa using hi

theorem deleteMessage_snd (st : MsgState) (mid uid : Nat) :
    (ChatController.deleteMessage st mid uid).2 =
      st.messages.any (fun m => m.id == mid && m.sender == uid) := by
  have hi := deleteFirstMessage_isSome (fun m => m.id == mid && m.sender == uid)
    st.messages
  unfold ChatController.deleteMessage
  cases h : deleteFirstMessage (fun m => m.id == mid && m.sender == uid)
      st.messages with
  | none => rw [h] at hi; simpa using hi
  | some ms => rw [h] at hi; simpa using hi

theorem editMessage_fail_frame (st : MsgState) (mid uid : Nat) (c : String)
    (h : (ChatController.editMessage st mid uid c).2 = false) :
    (ChatController.editMessage st mid uid c).1 = st := by
  unfold ChatController.editMessage at h ⊢
  cases hh : updateFirstMessage (fun m => m.id == mid && m.sender == uid)
      (fun m => { m with content := c, edited := true }) st.messages with
  | none => rfl
  | some ms => rw [hh] at h; cases h

theorem deleteMessage_fail_frame (st : MsgState) (mid uid : Nat)
    (h : (ChatController.deleteMessage st mid uid).2 = false) :
    (ChatController.deleteMessage st mid uid).1 = st := by
  unfold ChatController.deleteMessage at h ⊢
  cases hh : deleteFirstMessage (fun m => m.id == mid && m.sender == uid)
      st.messages with
  | none => rfl
  | some ms => rw [hh] at h; cases h

theorem messageCreate_eq_none_iff (n c s : Nat) (content : String)
    (r : List Nat) :
    messageCreate n c s content r = none ↔ strTrim content = "" := by
  unfold messageCreate
  split <;> simp_all

theorem chatCreate_some {n : Nat} {ps : List Nat} {t : String} {c : Chat}
    (h : chatCreate n ps t = some c) :
    c = { id := n, participants := ps, chatType := t, isActive := true,
          lastMessage := none, unreadCount := 0 } := by
  unfold chatCreate at h
  split at h
  · exact (Option.some.inj h).symm
  · cases h

/-! Claim theorems. -/

/-- C6 (counterexample): in `stC6` the only chat (id 10) is between users 1
and 2; yet a `handleMessage` call with sender 3 — not a participant —
persists the message, because the handler only checks that the chat is
active, contrary to the claim that a message is persisted only when the
sender is a participant. -/
theorem C6_nonparticipant_message_is_persisted :
    (Part000.handleMessage stC6 10 3 "hello").1.messages =
      [{ id := 0, chat := 10, sender := 3, content := "hello",
         readBy := [3], edited := false }] ∧
    (∀ ch ∈ stC6.chats, ch.participants = [1, 2]) ∧
    (3 : Nat) ∉ [1, 2] := by
  decide

/-- C6 (amended): a message is persisted iff the referenced chat exists and
is active and the content is non-empty after trimming — sender participation
and the spec's 4096-byte bound are not checked anywhere; on success exactly
the new message is appended, and in every rejected case nothing is
persisted. -/
theorem C6_message_persisted_iff_active_chat_and_nonempty
    (st : MsgState) (chatId senderId : Nat) (content : String) :
    ((∃ m r, (Part000.handleMessage st chatId senderId content).2 =
        MsgResult.ok m r) ↔
      (∃ chat, findChat st.chats chatId = some chat ∧ chat.isActive = true ∧
        strTrim content ≠ "")) ∧
    (∀ m r, (Part000.handleMessage st chatId senderId content).2 =
        MsgResult.ok m r →
      (Part000.handleMessage st chatId senderId content).1.messages =
        st.messages ++ [m]) ∧
    ((Part000.handleMessage st chatId senderId content).1.messages ≠
        st.messages →
      ∃ m r, (Part000.handleMessage st chatId senderId content).2 =
        MsgResult.ok m r) := by
  unfold Part000.handleMessage
  cases hc : findChat st.chats chatId with
  | none =>
      refine ⟨?_, ?_, ?_⟩
      · simp [hc]
      · intro m r h; cases h
      · intro h; cases h rfl
  | some chat =>
      dsimp only
      by_cases hact : chat.isActive = true
      · rw [if_pos hact]
        cases hmc : messageCreate st.nextMsgId chatId senderId content [senderId] with
        | none =>
            have htrim : strTrim content = "" :=
              (messageCreate_eq_none_iff _ _ _ _ _).mp hmc
            refine ⟨?_, ?_, ?_⟩
            · constructor
              · intro ⟨m, r, h⟩; cases h
              · intro ⟨ch, hch, hcha, hne⟩; exact absurd htrim hne
            · intro m r h; cases h
            · intro h; cases h rfl
        | some msg =>
            have htrim : strTrim content ≠ "" := by
              intro he
              rw [(messageCreate_eq_none_iff st.nextMsgId chatId senderId
                content [senderId]).mpr he] at hmc
              cases hmc
            refine ⟨?_, ?_, ?_⟩
            · constructor
              · intro _; exact ⟨chat, rfl, hact, htrim⟩
              · intro _
                exact ⟨msg, chat.participants.find? (fun i => ! (i == senderId)),
                  rfl⟩
            · intro m r h
              cases h
              rfl
            · intro _
              exact ⟨msg, chat.participants.find? (fun i => ! (i == senderId)),
                rfl⟩
      · rw [if_neg hact]
        refine ⟨?_, ?_, ?_⟩
        · constructor
          · intro ⟨m, r, h⟩; cases h
          · intro ⟨ch, hch, hcha, hne⟩
            cases hch
            exact absurd hcha hact
        · intro m r h; cases h
        · intro h; cases h rfl

/-- C6 (amended, witness): on `stC6` a message from participant 1 with
content `hello` is persisted. -/
theorem C6_message_persisted_iff_witness :
    ∃ m r, (Part000.handleMessage stC6 10 1 "hello").2 = MsgResult.ok m r :=
  (C6_message_persisted_iff_active_chat_and_nonempty stC6 10 1 "hello").1.mpr
    ⟨{ id := 10, participants := [1, 2], chatType := "Friendship",
       isActive := true, lastMessage := none, unreadCount := 0 },
     by decide, rfl, by decide⟩

/-- C10: an edit or delete request on a message succeeds exactly when some
stored message carries the requested id and the requester as its sender; when
it fails (requester is not the sender, or no such message) the handler
answers 404 and the state — so every message — is left untouched. -/
theorem C10_edit_delete_require_sender
    (st : MsgState) (mid uid : Nat) (c : String) :
    ((ChatController.editMessage st mid uid c).2 = true ↔
      ∃ m ∈ st.messages, m.id = mid ∧ m.sender = uid) ∧
    ((ChatController.editMessage st mid uid c).2 = false →
      (ChatController.editMessage st mid uid c).1 = st) ∧
    ((ChatController.deleteMessage st mid uid).2 = true ↔
      ∃ m ∈ st.messages, m.id = mid ∧ m.sender = uid) ∧
    ((ChatController.deleteMessage st mid uid).2 = false →
      (ChatController.deleteMessage st mid uid).1 = st) := by
  refine ⟨?_, editMessage_fail_frame st mid uid c, ?_, deleteMessage_fail_frame st mid uid⟩
  · rw [editMessage_snd]
    simp [List.any_eq_true]
  · rw [deleteMessage_snd]
    simp [List.any_eq_true]

/-- C10 (witness): on `stC10` (one message, id 5, sent by user 1), an edit
attempt by user 2 leaves the state unchanged, while a delete by the sender
succeeds. -/
theorem C10_edit_delete_require_sender_witness :
    (ChatController.editMessage stC10 5 2 "x").1 = stC10 ∧
    (ChatController.deleteMessage stC10 5 1).2 = true :=
  ⟨(C10_edit_delete_require_sender stC10 5 2 "x").2.1 (by decide),
   (C10_edit_delete_require_sender stC10 5 1 "x").2.2.1.mpr
     ⟨{ id := 5, chat := 10, sender := 1, content := "hi", readBy := [1],
        edited := false }, by decide, rfl, rfl⟩⟩

/-- C1 (counterexample): on the fresh ballot 7 of `stC1`, a rejection by
user 1 — the first vote on the ballot — does not decide the ballot: the
handler answers a pending success, the ballot stays in the table with the
rejection recorded, and both participants keep chatStatus `pending`, contrary
to the claim that any single reject immediately yields outcome Rejected with
the ballot removed and both users out of Pending. -/
theorem C1_first_reject_leaves_ballot_pending :
    (ChatController.handleMatchRejection stC1 7 1).2 = MatchResult.pending ∧
    lookupKey 7 (ChatController.handleMatchRejection stC1 7 1).1.pendingMatches =
      some { users := [1, 2], chatId := 7, acceptances := [],
             rejections := [1], expiresAt := 120000 } ∧
    lookupKey 1 (ChatController.handleMatchRejection stC1 7 1).1.userStatus =
      some "pending" ∧
    lookupKey 2 (ChatController.handleMatchRejection stC1 7 1).1.userStatus =
      some "pending" := by
  decide

/-- C2 (counterexample): in `stC2` user 2 sits in the pending ballot 7 (with
user 3); after user 2 issues `start-search` — which unconditionally forces
its status back to `searching` with no ballot check — the matcher proposes
the pair (1, 2) although ballot 7 is still pending and still lists user 2:
a user already in a pending ballot is paired again, contrary to the claim
that such users are never paired. -/
theorem C2_ballot_member_is_proposed_again :
    Part005.findMatch stC2b.activeUsers 1 =
      some { id := 2,
             user := { socketId := 200, status := "searching",
                       chatPreference := "Friendship", interests := ["art"] },
             commonCount := 1 } ∧
    lookupKey 7 stC2b.pendingMatches =
      some { users := [2, 3], chatId := 7, acceptances := [],
             rejections := [], expiresAt := 120000 } ∧
    (2 : Nat) ∈ [2, 3] := by
  decide

/-- C2 (amended): the matchers check compatibility, not ballots.  Whenever
the part_005 `findMatch` returns a candidate, the searcher is an active user
with status `searching` and the candidate is another active user with status
`searching`, the same chat preference and at least one common interest — but
membership in a pending ballot is not among the checks: `start-search`
unconditionally resets a user's entry to status `searching` and leaves the
pending-match table untouched, so a ballot participant can be proposed
again.  The queue-based `findBestMatch` of chatQueue likewise only returns a
different queue member with the same chat preference and a shared
interest. -/
theorem C2_matcher_checks_compatibility_not_ballots
    (au : List (Nat × ActiveUser)) (uid : Nat) (c : Part005.Candidate)
    (hm : Part005.findMatch au uid = some c) :
    (∃ s, lookupKey uid au = some s ∧ s.status = "searching" ∧
      c.user.status = "searching" ∧
      c.user.chatPreference = s.chatPreference ∧
      1 ≤ (Part005.commonInterests c.user s).length ∧
      c.id ≠ uid ∧ (c.id, c.user) ∈ au) ∧
    (∀ (st : ServerJs.ServerState) (u sid : Nat) (ints : List String)
        (pref : String),
      lookupKey u (Part005.startSearch st u sid ints pref).activeUsers =
        some { socketId := sid, status := "searching",
               chatPreference := pref, interests := ints } ∧
      (Part005.startSearch st u sid ints pref).pendingMatches =
        st.pendingMatches) ∧
    (∀ (queue : List (Nat × ChatQueue.QueueEntry)) (cu : Nat)
        (cur : ChatQueue.QueueEntry) (r : Nat),
      ChatQueue.findBestMatch queue cu cur = some r →
      r ≠ cu ∧ ∃ e, (r, e) ∈ queue ∧ e.chatPreference = cur.chatPreference ∧
        ∃ i ∈ e.interests, i ∈ cur.interests) := by
  refine ⟨?_, ?_, ?_⟩
  · unfold Part005.findMatch at hm
    cases hs : lookupKey uid au with
    | none => rw [hs] at hm; cases hm
    | some s =>
        rw [hs] at hm
        dsimp only at hm
        by_cases hstat : s.status = "searching"
        · rw [if_pos hstat] at hm
          generalize hpot : au.filterMap (fun p =>
              if p.1 ≠ uid ∧ p.2.status = "searching" ∧
                  p.2.chatPreference = s.chatPreference ∧
                  0 < (Part005.commonInterests p.2 s).length then
                some (⟨p.1, p.2, (Part005.commonInterests p.2 s).length⟩ :
                  Part005.Candidate)
              else none) = pot at hm
          have hcr := List.mem_of_mem_head? hm
          have hcp : c ∈ pot := by
            by_cases hl : 1 < pot.length
            · rw [if_pos hl] at hcr
              exact (List.mergeSort_perm _ _).mem_iff.mp hcr
            · rwa [if_neg hl] at hcr
          rw [← hpot] at hcp
          obtain ⟨p, hpmem, hpf⟩ := List.mem_filterMap.mp hcp
          by_cases hcond : p.1 ≠ uid ∧ p.2.status = "searching" ∧
              p.2.chatPreference = s.chatPreference ∧
              0 < (Part005.commonInterests p.2 s).length
          · rw [if_pos hcond] at hpf
            obtain ⟨hne, hst2, hpref, hcnt⟩ := hcond
            obtain rfl := Option.some.inj hpf
            exact ⟨s, rfl, hstat, hst2, hpref, hcnt, hne, by simpa using hpmem⟩
          · rw [if_neg hcond] at hpf
            cases hpf
        · rw [if_neg hstat] at hm
          cases hm
  · intro st u sid ints pref
    exact ⟨lookupKey_setKey _ _ _, rfl⟩
  · intro queue cu cur r hfb
    unfold ChatQueue.findBestMatch at hfb
    cases hf : queue.find? (fun p =>
        (! (p.1 == cu)) && p.2.chatPreference == cur.chatPreference &&
        p.2.interests.any (fun i => cur.interests.contains i)) with
    | none => rw [hf] at hfb; cases hfb
    | some p =>
        rw [hf] at hfb
        have hp := List.find?_some hf
        have hmem := List.mem_of_find?_eq_some hf
        obtain rfl := Option.some.inj hfb
        simp only [Bool.and_eq_true, Bool.not_eq_true', beq_iff_eq,
          beq_eq_false_iff_ne, List.any_eq_true] at hp
        obtain ⟨⟨hne, hpref⟩, i, hi, hic⟩ := hp
        exact ⟨hne, p.2, by simpa using hmem, hpref, i, hi, by simpa using hic⟩

/-- C2 (amended, witness): the amended theorem instantiated on `auC2` (users
1 and 2, both searching, same preference, shared interest), whose `findMatch`
result for user 1 is `candC2`; the start-search conjunct is exercised on
`stC2` at user 2 and the queue conjunct on a two-entry queue where user 5
matches user 4. -/
theorem C2_matcher_checks_compatibility_not_ballots_witness :
    (∃ s, lookupKey 1 auC2 = some s ∧ s.status = "searching" ∧
      candC2.user.status = "searching" ∧
      candC2.user.chatPreference = s.chatPreference ∧
      1 ≤ (Part005.commonInterests candC2.user s).length ∧
      candC2.id ≠ 1 ∧ (candC2.id, candC2.user) ∈ auC2) ∧
    (lookupKey 2 (Part005.startSearch stC2 2 200 ["art"] "Friendship").activeUsers =
      some { socketId := 200, status := "searching",
             chatPreference := "Friendship", interests := ["art"] } ∧
      (Part005.startSearch stC2 2 200 ["art"] "Friendship").pendingMatches =
        stC2.pendingMatches) ∧
    ((5 : Nat) ≠ 4 ∧
      ∃ e, ((5 : Nat), e) ∈
          [(5, ({ interests := ["art"], chatPreference := "Friendship",
                  timestamp := 0 } : ChatQueue.QueueEntry))] ∧
        e.chatPreference = "Friendship" ∧
        ∃ i ∈ e.interests, i ∈ ["music", "art"]) :=
  ⟨(C2_matcher_checks_compatibility_not_ballots auC2 1 candC2 (by decide)).1,
   (C2_matcher_checks_compatibility_not_ballots auC2 1 candC2 (by decide)).2.1
     stC2 2 200 ["art"] "Friendship",
   (C2_matcher_checks_compatibility_not_ballots auC2 1 candC2 (by decide)).2.2
     [(5, { interests := ["art"], chatPreference := "Friendship", timestamp := 0 })]
     4 { interests := ["music", "art"], chatPreference := "Friendship",
         timestamp := 1 } 5 (by decide)⟩

/-- C4 (counterexample): when the expiry timer fires on the undecided ballot
7 of `stC4`, the ballot is removed from the table but both participants keep
chatStatus `pending` — they are not transitioned back to online/offline, and
the timer has no notification channel at all — contrary to the claim. -/
theorem C4_expiry_does_not_release_users :
    lookupKey 7 (ChatController.expireTimer stC4 7).pendingMatches = none ∧
    lookupKey 1 (ChatController.expireTimer stC4 7).userStatus = some "pending" ∧
    lookupKey 2 (ChatController.expireTimer stC4 7).userStatus = some "pending" := by
  decide

/-- C4 (amended): the 120 s expiry timer of `createChatSession` only deletes
the ballot from the pending-match table; the chat collection and every user's
chatStatus are left untouched, and no event is produced. -/
theorem C4_expiry_only_deletes_ballot (st : ChatController.CtrlState)
    (chatId : Nat) :
    (ChatController.expireTimer st chatId).userStatus = st.userStatus ∧
    (ChatController.expireTimer st chatId).chats = st.chats ∧
    lookupKey chatId (ChatController.expireTimer st chatId).pendingMatches = none :=
  ⟨rfl, rfl, lookupKey_removeKey _ _⟩

/-- C5 (code bug): in `stC5` user 2 has accepted ballot 7; when user 1 also
accepts, `handleMatchAcceptance` reaches the unanimous branch and calls
`Chat.create` with `chatType: random`, which the chatType enum of
`chatModel.js` (only Friendship and Dating) rejects — so no session is
created, nobody reaches `in_chat`, and the handler returns the caught
validation error while the ballot stays in the table. -/
theorem C5_unanimous_accept_fails_schema_validation :
    (ChatController.handleMatchAcceptance stC5 7 1).2 =
      MatchResult.err "Chat validation failed" ∧
    (ChatController.handleMatchAcceptance stC5 7 1).1.chats = [] ∧
    lookupKey 7 (ChatController.handleMatchAcceptance stC5 7 1).1.pendingMatches =
      some { users := [1, 2], chatId := 7, acceptances := [2, 1],
             rejections := [], expiresAt := 120000 } ∧
    lookupKey 1 (ChatController.handleMatchAcceptance stC5 7 1).1.userStatus =
      some "pending" ∧
    "random" ∉ chatTypeEnum := by
  decide

/-- C7 (code bug): the `send-message` socket handler of `src/server.js`
persists the sender's message with the schema-default `readBy = []`, so the
persisted message's readBy set does not contain the sender, contrary to the
invariant claimed. -/
theorem C7_server_send_message_omits_sender_from_readBy :
    (ServerJs.sendMessage stC7 10 1 "hi").1.messages =
      [{ id := 0, chat := 10, sender := 1, content := "hi",
         readBy := [], edited := false }] ∧
    ∀ m ∈ (ServerJs.sendMessage stC7 10 1 "hi").1.messages,
      m.sender ∉ m.readBy := by
  decide

/-- C8 (counterexample): starting from no chats, a part_001
`createChatSession` for users 1 and 2 with type Friendship followed by one
with type Dating creates two chats, both active and both between users 1 and
2 — the duplicate check filters on chat type (and ignores `isActive`), so the
pair ends up with two simultaneous active sessions, contrary to the claim. -/
theorem C8_two_active_sessions_for_same_pair :
    (activeSessionsBetween stC8b.chats 1 2).length = 2 := by
  decide

/-- C8 (amended): the part_000 `createChatSession` keeps the pair invariant —
if at most one active session exists between two users, this still holds
after the call — and when an active chat between the pair already exists the
call returns it unchanged instead of creating a new one; the part_001
`createChatSession` returns an existing chat only when it also carries the
same chat type (regardless of the chat being active). -/
theorem C8_create_returns_existing_session
    (st : SessState) (u1 u2 : Nat) (chatType : String) :
    ((activeSessionsBetween st.chats u1 u2).length ≤ 1 →
      (activeSessionsBetween
          (Part000.createChatSession st u1 u2 chatType).1.chats u1 u2).length ≤ 1) ∧
    (∀ c, st.chats.find? (fun d =>
          d.participants.contains u1 && d.participants.contains u2 &&
          d.isActive) = some c →
      Part000.createChatSession st u1 u2 chatType = (st, CreateResult.existing c)) ∧
    (∀ c, st.chats.find? (fun d =>
          d.participants.contains u1 && d.participants.contains u2 &&
          d.chatType == chatType) = some c →
      Part001.createChatSession st u1 u2 chatType = (st, CreateResult.existing c)) := by
  refine ⟨?_, ?_, ?_⟩
  · intro hle
    unfold Part000.createChatSession
    cases hf : st.chats.find? (fun d =>
        d.participants.contains u1 && d.participants.contains u2 && d.isActive) with
    | some c => exact hle
    | none =>
        have hall := List.find?_eq_none.mp hf
        have hfil : activeSessionsBetween st.chats u1 u2 = [] := by
          refine List.filter_eq_nil_iff.mpr ?_
          intro d hd
          have hthis := hall d hd
          simp only [Bool.and_eq_true] at hthis ⊢
          tauto
        cases hcc : chatCreate st.nextId [u1, u2] chatType with
        | none => exact hle
        | some chat =>
            have hchat := chatCreate_some hcc
            dsimp only
            show (activeSessionsBetween (st.chats ++ [chat]) u1 u2).length ≤ 1
            rw [activeSessionsBetween, List.filter_append]
            rw [show List.filter _ st.chats = activeSessionsBetween st.chats u1 u2 from rfl]
            rw [hfil]
            subst hchat
            simp
  · intro c hf
    unfold Part000.createChatSession
    rw [hf]
  · intro c hf
    unfold Part001.createChatSession
    rw [hf]

/-- C8 (amended, witness): in `stC8w` users 1 and 2 already share the active
Friendship chat 0; a second create through either variant returns it
unchanged and the pair invariant is preserved. -/
theorem C8_create_returns_existing_session_witness :
    (activeSessionsBetween
        (Part000.createChatSession stC8w 1 2 "Friendship").1.chats 1 2).length ≤ 1 ∧
    Part000.createChatSession stC8w 1 2 "Friendship" =
      (stC8w, CreateResult.existing
        { id := 0, participants := [1, 2], chatType := "Friendship",
          isActive := true, lastMessage := none, unreadCount := 0 }) ∧
    Part001.createChatSession stC8w 1 2 "Friendship" =
      (stC8w, CreateResult.existing
        { id := 0, participants := [1, 2], chatType := "Friendship",
          isActive := true, lastMessage := none, unreadCount := 0 }) :=
  ⟨(C8_create_returns_existing_session stC8w 1 2 "Friendship").1 (by decide),
   (C8_create_returns_existing_session stC8w 1 2 "Friendship").2.1 _ (by decide),
   (C8_create_returns_existing_session stC8w 1 2 "Friendship").2.2 _ (by decide)⟩

/-- C9 (counterexample): in `stC9` users 1 and 2 sit in the pending ballot 7;
when user 1's socket (100) disconnects, the handler only removes user 1 from
the active-user map and marks it offline — the ballot is still open with no
rejection recorded and user 2 is still `pending`, contrary to the claim that
a disconnect counts as a reject that decides the ballot and releases the
partner. -/
theorem C9_disconnect_does_not_reject_ballot :
    (ServerJs.disconnectHandler stC9 100).pendingMatches = stC9.pendingMatches ∧
    lookupKey 7 (ServerJs.disconnectHandler stC9 100).pendingMatches =
      some { users := [1, 2], chatId := 7, acceptances := [],
             rejections := [], expiresAt := 120000 } ∧
    lookupKey 2 (ServerJs.disconnectHandler stC9 100).userDb =
      some { online := true, chatStatus := "pending" } := by
  decide

/-- C9 (amended): the disconnect handler of `src/server.js` cleans the
disconnected user out of the active-user map, clears its match interval and
marks it offline in the database, but never touches the pending-match table:
no implicit reject is recorded and the ballot is left to its TTL or to the
partner's own votes. -/
theorem C9_disconnect_preserves_pending_matches
    (st : ServerJs.ServerState) (socketId : Nat) :
    (ServerJs.disconnectHandler st socketId).pendingMatches = st.pendingMatches := by
  unfold ServerJs.disconnectHandler ServerJs.cleanupUser
  cases h : st.activeUsers.find? (fun p => p.2.socketId == socketId) <;> rfl

/-- C1 (amended): a rejection decides a ballot only as its second response.
If the rejecting user has not voted before, then: when nobody has voted yet,
the handler records the rejection, keeps the ballot and answers a pending
success; when the other vote is already in, the ballot is removed and the
outcome is rejected.  (Acceptance still requires both acceptances.) -/
theorem C1_reject_decides_only_as_second_response
    (st : ChatController.CtrlState) (chatId userId : Nat) (m : PendingMatch)
    (hm : lookupKey chatId st.pendingMatches = some m)
    (ha : userId ∉ m.acceptances) (hr : userId ∉ m.rejections) :
    (m.acceptances.length + m.rejections.length = 0 →
      (ChatController.handleMatchRejection st chatId userId).2 =
        MatchResult.pending ∧
      lookupKey chatId
          (ChatController.handleMatchRejection st chatId userId).1.pendingMatches =
        some { m with rejections := m.rejections ++ [userId] }) ∧
    (m.acceptances.length + m.rejections.length = 1 →
      (ChatController.handleMatchRejection st chatId userId).2 =
        MatchResult.rejected ∧
      lookupKey chatId
          (ChatController.handleMatchRejection st chatId userId).1.pendingMatches =
        none) := by
  have hresp : (m.rejections.contains userId || m.acceptances.contains userId) = false := by
    simp [ha, hr]
  unfold ChatController.handleMatchRejection
  rw [hm]
  dsimp only
  rw [hresp]
  simp only [Bool.false_eq_true, if_false]
  constructor
  · intro h0
    rw [if_pos (by simp [List.length_append]; omega)]
    exact ⟨rfl, lookupKey_setKey _ _ _⟩
  · intro h1
    rw [if_neg (by simp [List.length_append]; omega)]
    exact ⟨rfl, lookupKey_removeKey _ _⟩

/-- C1 (amended, witness): the amended theorem instantiated on the fresh
ballot of `stC1` (first response: pending) and on the half-voted ballot of
`stC1b` (second response: rejected, ballot removed). -/
theorem C1_reject_decides_only_as_second_response_witness :
    ((ChatController.handleMatchRejection stC1 7 1).2 = MatchResult.pending ∧
      lookupKey 7
          (ChatController.handleMatchRejection stC1 7 1).1.pendingMatches =
        some { users := [1, 2], chatId := 7, acceptances := [],
               rejections := [1], expiresAt := 120000 }) ∧
    ((ChatController.handleMatchRejection stC1b 7 1).2 = MatchResult.rejected ∧
      lookupKey 7
          (ChatController.handleMatchRejection stC1b 7 1).1.pendingMatches =
        none) :=
  ⟨(C1_reject_decides_only_as_second_response stC1 7 1
      { users := [1, 2], chatId := 7, acceptances := [], rejections := [],
        expiresAt := 120000 }
      (by decide) (by decide) (by decide)).1 (by decide),
   (C1_reject_decides_only_as_second_response stC1b 7 1
      { users := [1, 2], chatId := 7, acceptances := [2], rejections := [],
        expiresAt := 120000 }
      (by decide) (by decide) (by decide)).2 (by decide)⟩

/-- C3: a repeated vote from a user who has already responded on a
still-undecided ballot changes nothing.  If the ballot is in the table, the
user appears among its acceptances or rejections, at most one response has
been recorded (which is forced for an undecided ballot), and the ballot's
participants already have chatStatus `pending`, then both
`handleMatchAcceptance` and `handleMatchRejection` return the state unchanged
with an idempotent pending success — in particular no session is created by a
double accept. -/
theorem C3_repeated_vote_is_idempotent
    (st : ChatController.CtrlState) (chatId userId : Nat) (m : PendingMatch)
    (hm : lookupKey chatId st.pendingMatches = some m)
    (hv : userId ∈ m.acceptances ∨ userId ∈ m.rejections)
    (hu : m.acceptances.length + m.rejections.length ≤ 1)
    (hs : ∀ p ∈ st.userStatus, p.1 ∈ m.users → p.2 = "pending") :
    ChatController.handleMatchAcceptance st chatId userId =
      (st, MatchResult.pending) ∧
    ChatController.handleMatchRejection st chatId userId =
      (st, MatchResult.pending) := by
  have hra : (m.acceptances.contains userId || m.rejections.contains userId) = true := by
    rcases hv with h | h <;> simp [h]
  have hrr : (m.rejections.contains userId || m.acceptances.contains userId) = true := by
    rcases hv with h | h <;> simp [h]
  have hdb : setStatusMany m.users "pending" st.userStatus = st.userStatus :=
    setStatusMany_eq_self _ _ _ hs
  constructor
  · unfold ChatController.handleMatchAcceptance
    rw [hm]
    dsimp only
    rw [hra]
    simp only [if_true]
    rw [if_pos (by constructor <;> omega)]
    rw [hdb]
  · unfold ChatController.handleMatchRejection
    rw [hm]
    dsimp only
    rw [hrr]
    simp only [if_true]

/-- C3 (witness): the idempotence theorem instantiated on the ballot of
`stC3`, on which user 1 has already accepted. -/
theorem C3_repeated_vote_is_idempotent_witness :
    ChatController.handleMatchAcceptance stC3 7 1 = (stC3, MatchResult.pending) ∧
    ChatController.handleMatchRejection stC3 7 1 = (stC3, MatchResult.pending) :=
  C3_repeated_vote_is_idempotent stC3 7 1
    { users := [1, 2], chatId := 7, acceptances := [1], rejections := [],
      expiresAt := 120000 }
    (by decide) (by decide) (by decide) (by decide)

end CircleBack
